import Mathlib

/-!
Verification of the retrieval-augmented conversation backend
(`src/backend/index.js`).

The development shallowly embeds the request/response handling, history
rendering and startup sequencing of the source file.  The parts of the
pipeline implemented by external langchain dependencies (the text splitter,
the vector store, the history-aware retriever and the chain/memory glue) are
not part of this repository's source; those components are modelled from the
specification's component contracts and are marked `Modelled from the spec:`
in their doc comments.  External services (completion model, embedding model,
history store) are parameters, with failure represented by `Except`.
-/

namespace ChatBackend

/-- Text is modelled as a list of characters (one unit per character). -/
abbrev Str := List Char

/-- A chat message from the history store.  The constructors mirror the
`_getType()` discrimination in `createChatHistoryDocs` (src lines 107-113):
`human`, `ai`, and everything else (including messages without a usable
`_getType`). -/
inductive Msg
  | human : String → Msg
  | ai : String → Msg
  | other : String → Msg
deriving DecidableEq

/-- Role-labelled rendering of one history message (src lines 107-113). -/
def renderMsg : Msg → String
  | Msg.human c => "用户: " ++ c
  | Msg.ai c => "智能体: " ++ c
  | Msg.other c => "未知角色: " ++ c

/-- Content of the synthetic chat-history document (src lines 106-114).
`some msgs` models `getMessages()` resolving to an array of messages;
`none` models a non-array value, the only case in which the source
produces the placeholder text. -/
def chatHistoryContent : Option (List Msg) → String
  | some msgs => String.intercalate "\n" (msgs.map renderMsg)
  | none => "无历史对话"

/-- A document: content plus string-to-string metadata.  Chunks produced by
splitting are documents as well (same shape, src keeps them as `Document`). -/
structure Doc where
  content : Str
  metadata : List (String × String)
deriving DecidableEq

/-- The synthetic history document built by `createChatHistoryDocs`
(src lines 116-121): the rendered history with `source: chat_history`. -/
def createChatHistoryDocs (msgs : Option (List Msg)) : Doc :=
  ⟨(chatHistoryContent msgs).toList, [("source", "chat_history")]⟩

/-- Chunk size constant from src line 140. -/
def chunkSize : Nat := 100

/-- Chunk overlap constant from src line 141. -/
def chunkOverlap : Nat := 10

/-- Modelled from the spec: the Chunker's `split` on one text (§4.3).  The
splitting algorithm itself lives in the external `@langchain/textsplitters`
dependency and is not part of this repository's source; only its
configuration (chunkSize 100, chunkOverlap 10, src lines 139-142) is.
Following §4.3, a window of at most 100 units slides over the content and
consecutive windows share the final 10 units of the previous window.
`fuel` bounds the recursion; `splitStr` below supplies sufficient fuel. -/
def splitStrGo : Nat → Str → List Str
  | 0, s => [s]
  | fuel + 1, s =>
    if s.length ≤ 100 then [s] else s.take 100 :: splitStrGo fuel (s.drop 90)

/-- `split` on one text with sufficient fuel. -/
def splitStr (s : Str) : List Str := splitStrGo s.length s

/-- Modelled from the spec: `split(documents, chunkSize, overlap)` (§4.3):
chunk order follows document order and in-document position, and each chunk
retains its parent document's metadata. -/
def splitDocuments (docs : List Doc) : List Doc :=
  docs.flatMap (fun d => (splitStr d.content).map (fun c => ⟨c, d.metadata⟩))

/-- Adjacent-chunk overlap check: each chunk's final 10 units equal the next
chunk's first 10 units (§4.3: consecutive chunks from one document share
`overlap` units of content). -/
def adjacentOverlap : List Str → Bool
  | a :: b :: rest => (a.drop (a.length - 10) == b.take 10) && adjacentOverlap (b :: rest)
  | _ => true

/-- The fixed retrieval constant k = 2 (src line 164, `asRetriever` with k 2). -/
def retrieverK : Nat := 2

/-- Insert one (chunk, score) pair into a list that is sorted by
non-increasing score. -/
def insertDesc (x : Str × Int) : List (Str × Int) → List (Str × Int)
  | [] => [x]
  | y :: ys => if y.2 ≤ x.2 then x :: y :: ys else y :: insertDesc x ys

/-- Sort (chunk, score) pairs by non-increasing score. -/
def sortDesc : List (Str × Int) → List (Str × Int)
  | [] => []
  | x :: xs => insertDesc x (sortDesc xs)

/-- Modelled from the spec: `Index.query(text, k)` (§4.4).  The vector store
is the external `MemoryVectorStore` dependency, not part of this repository's
source.  Per §4.4 the index scores every chunk with the similarity function
`sim`, orders results by non-increasing score and returns at most `k`. -/
def queryIndex (sim : Str → Str → Int) (index : List Str) (q : Str) (k : Nat) :
    List (Str × Int) :=
  (sortDesc (index.map (fun c => (c, sim c q)))).take k

/-- A JSON value, as much of it as the handler's payloads need. -/
inductive Json
  | str : String → Json
  | arr : List Json → Json
  | obj : List (String × Json) → Json

/-- The fixed user-visible error message (src line 248). -/
def fallbackMessage : String := "出错了，请稍后再试。"

/-- The fixed error payload sent from the handler's catch block
(src line 248). -/
def errorBody : Json := Json.obj [("reply", Json.str fallbackMessage)]

/-- The success payload built at src lines 235-243. -/
def successBody (content : String) : Json :=
  Json.obj
    [("choices",
      Json.arr [Json.obj [("message", Json.obj [("content", Json.str content)])]])]

/-- Whether a JSON value has the one-field shape reply-to-string. -/
def hasReplyShape : Json → Bool
  | Json.obj [("reply", Json.str _)] => true
  | _ => false

/-- One element of an array-valued model answer; `text` is `none` when the
element lacks a text field (src line 231 reads `c.text` with a default). -/
structure RespElem where
  text : Option String
deriving DecidableEq

/-- The model answer `response.answer.response` as consumed at src line 231:
either a plain value or an array of elements. -/
inductive RespVal
  | str : String → RespVal
  | arr : List RespElem → RespVal

/-- The normalization at src line 231: an array becomes the concatenation of
each element's text (empty string when absent); anything else passes
through. -/
def normalizeContent : RespVal → String
  | RespVal.str s => s
  | RespVal.arr l => String.join (l.map (fun c => c.text.getD ""))

/-- The conversation history owned by the history store for the single
session of this process. -/
structure PipelineState where
  history : List Msg
deriving DecidableEq

/-- The `/chat` handler (src lines 216-250): read `req.body.input` (possibly
absent, modelled by `none`), run the chain on it with no validation,
normalize the answer into the success payload, and convert any thrown error
into status 500 with the fixed error payload, leaving the history as the
chain left it (untouched on error). -/
def chatEndpoint
    (pipeline : Option String → PipelineState → Except Unit (RespVal × PipelineState))
    (inp : Option String) (st : PipelineState) : (Nat × Json) × PipelineState :=
  match pipeline inp st with
  | Except.ok (v, st') => ((200, successBody (normalizeContent v)), st')
  | Except.error _ => ((500, errorBody), st)

/-- JS template rendering of a possibly-missing request input (an absent
field stringifies to "undefined"). -/
def rawInput : Option String → String
  | some s => s
  | none => "undefined"

/-- The rephrase instruction of the retriever prompt (src line 170). -/
def rewriteInstruction : String :=
  "根据上述对话，生成一个可用于查找与该对话相关信息的搜索查询"

/-- The rendered rephrase prompt (src lines 166-172): the user input message
followed by the fixed instruction message. -/
def rewritePromptRender (inp : Option String) : String :=
  rawInput inp ++ "\n" ++ rewriteInstruction

/-- Modelled from the spec: the Query Rewriter (§4.5).
`createHistoryAwareRetriever` (src lines 174-178) delegates to the langchain
dependency, which is not part of this repository's source; per §4.5 a
completion-service failure falls back to the latest input verbatim as the
search query instead of failing the request. -/
def rewriteQuery (llm : String → Except Unit String) (inp : Option String) : String :=
  match llm (rewritePromptRender inp) with
  | Except.ok q => q
  | Except.error _ => rawInput inp

/-- Modelled from the spec: one chain invocation (src line 225 together with
§4.5-§4.7 and §5).  The chain rewrites the query, retrieves the top-k chunks
from the index, generates a reply from chunks and input, and appends the user
turn and the reply to the history only after generation succeeds
(append-after-success, §5); a generation error propagates with the history
untouched. -/
def chainPipeline (rewriteLLM : String → Except Unit String) (sim : Str → Str → Int)
    (index : List Str)
    (gen : List (Str × Int) → Option String → Except Unit RespVal) :
    Option String → PipelineState → Except Unit (RespVal × PipelineState) :=
  fun inp st =>
    match gen (queryIndex sim index (rewriteQuery rewriteLLM inp).toList retrieverK) inp with
    | Except.ok v =>
      Except.ok (v, ⟨st.history ++ [Msg.human (rawInput inp), Msg.ai (normalizeContent v)]⟩)
    | Except.error e => Except.error e

/-- Startup error taxonomy (§7). -/
inductive StartupError
  | corpusLoadError
  | embeddingServiceError
deriving DecidableEq

/-- The top-level initialization sequence (src lines 204-213): load the
knowledge corpus, build the history document, split everything into chunks
(`createVecorstore`, src lines 137-158) and build the embedding index.  The
corpus loader and the embedding-index builder are external services whose
failure rejects the corresponding top-level `await`, aborting module
evaluation. -/
def startup (loadRefs : Except StartupError (List Doc)) (histMsgs : Option (List Msg))
    (embedBuild : List Doc → Except StartupError (List Str)) :
    Except StartupError (List Str) :=
  match loadRefs with
  | Except.error e => Except.error e
  | Except.ok refs =>
    embedBuild (splitDocuments (refs ++ [createChatHistoryDocs histMsgs]))

/-- `app.listen` (src lines 256-257) runs only after every top-level `await`
has resolved: the process serves requests iff startup succeeded. -/
def servesRequests (r : Except StartupError (List Str)) : Bool := r.isOk

/-- A concrete short document (content fits in one chunk). -/
def docShort : Doc := ⟨"你好".toList, [("source", "context.json")]⟩

/-- A concrete long document (content of 120 units). -/
def docLong : Doc := ⟨List.replicate 120 'a', [("source", "context.json")]⟩

/-- A concrete empty conversation state. -/
def emptyState : PipelineState := ⟨[]⟩

/-- A pipeline that deterministically succeeds with a fixed string reply. -/
def okPipeline : Option String → PipelineState → Except Unit (RespVal × PipelineState) :=
  fun _ st => Except.ok (RespVal.str "您好！", st)

/-- A pipeline whose answer is an array of elements, one lacking text. -/
def arrPipeline : Option String → PipelineState → Except Unit (RespVal × PipelineState) :=
  fun _ st => Except.ok (RespVal.arr [⟨some "您"⟩, ⟨none⟩, ⟨some "好"⟩], st)

/-- A pipeline that always throws. -/
def failPipeline : Option String → PipelineState → Except Unit (RespVal × PipelineState) :=
  fun _ _ => Except.error ()

/-- A completion service that always fails. -/
def failLLM : String → Except Unit String := fun _ => Except.error ()

/-- A generation stage that always fails. -/
def failGen : List (Str × Int) → Option String → Except Unit RespVal :=
  fun _ _ => Except.error ()

/-- A generation stage that always succeeds with a fixed reply. -/
def okGen : List (Str × Int) → Option String → Except Unit RespVal :=
  fun _ _ => Except.ok (RespVal.str "您好！")

/-- A constant similarity function. -/
def constSim : Str → Str → Int := fun _ _ => 0

/-! ## Helper lemmas -/

theorem splitStrGo_small (fuel : Nat) (s : Str) (h : s.length ≤ 100) :
    splitStrGo fuel s = [s] := by
  cases fuel with
  | zero => rfl
  | succ n => simp [splitStrGo, h]

theorem splitStrGo_len (fuel : Nat) (s : Str) (h : s.length ≤ 100 + 90 * fuel) :
    ∀ c ∈ splitStrGo fuel s, c.length ≤ 100 := by
  induction fuel generalizing s with
  | zero =>
    intro c hc
    simp [splitStrGo] at hc
    subst hc
    simpa using h
  | succ n ih =>
    intro c hc
    by_cases hs : s.length ≤ 100
    · simp [splitStrGo, hs] at hc
      subst hc
      exact hs
    · simp only [splitStrGo, if_neg hs, List.mem_cons] at hc
      cases hc with
      | inl h1 =>
        subst h1
        simp [List.length_take]
      | inr h2 =>
        exact ih (s.drop 90) (by simp [List.length_drop]; omega) c h2

theorem splitStrGo_head (fuel : Nat) (s : Str) :
    ∃ h t, splitStrGo fuel s = h :: t ∧ h.take 10 = s.take 10 := by
  cases fuel with
  | zero => exact ⟨s, [], rfl, rfl⟩
  | succ n =>
    by_cases hs : s.length ≤ 100
    · exact ⟨s, [], by simp [splitStrGo, hs], rfl⟩
    · refine ⟨s.take 100, splitStrGo n (s.drop 90), by simp [splitStrGo, hs], ?_⟩
      rw [List.take_take]
      norm_num

theorem splitStrGo_adjacent (fuel : Nat) (s : Str) (h : s.length ≤ 100 + 90 * fuel) :
    adjacentOverlap (splitStrGo fuel s) = true := by
  induction fuel generalizing s with
  | zero => simp [splitStrGo, adjacentOverlap]
  | succ n ih =>
    by_cases hs : s.length ≤ 100
    · simp [splitStrGo, hs, adjacentOverlap]
    · obtain ⟨hd, tl, heq, htake⟩ := splitStrGo_head n (s.drop 90)
      have hrec : adjacentOverlap (splitStrGo n (s.drop 90)) = true :=
        ih (s.drop 90) (by simp [List.length_drop]; omega)
      have hlen : (s.take 100).length = 100 := by
        simp [List.length_take]
        omega
      have hover : (s.take 100).drop ((s.take 100).length - 10) = hd.take 10 := by
        rw [hlen, htake, List.drop_take]
      rw [splitStrGo, if_neg hs, heq, adjacentOverlap, ← heq, hrec, hover]
      simp

theorem mem_insertDesc {x z : Str × Int} {l : List (Str × Int)}
    (h : z ∈ insertDesc x l) : z = x ∨ z ∈ l := by
  induction l with
  | nil =>
    simp [insertDesc] at h
    simp [h]
  | cons y ys ih =>
    by_cases hxy : y.2 ≤ x.2
    · simp only [insertDesc, if_pos hxy, List.mem_cons] at h
      simp only [List.mem_cons]
      tauto
    · simp only [insertDesc, if_neg hxy, List.mem_cons] at h
      cases h with
      | inl h1 => simp [h1]
      | inr h2 =>
        cases ih h2 with
        | inl h3 => exact Or.inl h3
        | inr h3 => exact Or.inr (List.mem_cons_of_mem y h3)

theorem pairwise_insertDesc (x : Str × Int) (l : List (Str × Int))
    (h : List.Pairwise (fun a b : Str × Int => b.2 ≤ a.2) l) :
    List.Pairwise (fun a b : Str × Int => b.2 ≤ a.2) (insertDesc x l) := by
  induction l with
  | nil => simp [insertDesc]
  | cons y ys ih =>
    rcases List.pairwise_cons.mp h with ⟨hy, hys⟩
    by_cases hxy : y.2 ≤ x.2
    · rw [insertDesc, if_pos hxy]
      refine List.pairwise_cons.mpr ⟨?_, h⟩
      intro z hz
      rcases List.mem_cons.mp hz with h1 | h2
      · subst h1; exact hxy
      · exact le_trans (hy z h2) hxy
    · rw [insertDesc, if_neg hxy]
      refine List.pairwise_cons.mpr ⟨?_, ih hys⟩
      intro z hz
      rcases mem_insertDesc hz with h1 | h2
      · subst h1; omega
      · exact hy z h2

theorem pairwise_sortDesc (l : List (Str × Int)) :
    List.Pairwise (fun a b : Str × Int => b.2 ≤ a.2) (sortDesc l) := by
  induction l with
  | nil => simp [sortDesc]
  | cons x xs ih => exact pairwise_insertDesc x _ ih

theorem length_insertDesc (x : Str × Int) (l : List (Str × Int)) :
    (insertDesc x l).length = l.length + 1 := by
  induction l with
  | nil => rfl
  | cons y ys ih => by_cases hxy : y.2 ≤ x.2 <;> simp [insertDesc, hxy, ih]

theorem length_sortDesc (l : List (Str × Int)) : (sortDesc l).length = l.length := by
  induction l with
  | nil => rfl
  | cons x xs ih => simp [sortDesc, length_insertDesc, ih]

theorem successBody_ne_errorBody (c : String) : successBody c ≠ errorBody := by
  intro h
  have h1 : hasReplyShape (successBody c) = hasReplyShape errorBody := by rw [h]
  simp [hasReplyShape, successBody, errorBody] at h1

/-! ## Claim theorems -/

/-- C1, counterexample: a chat request that succeeds gets status 200 with a
body that is not of the shape reply-to-string; the claimed success shape is
wrong on the code. -/
theorem c1_success_shape_counterexample :
    (chatEndpoint okPipeline (some "你好") emptyState).1.1 = 200 ∧
    hasReplyShape (chatEndpoint okPipeline (some "你好") emptyState).1.2 = false := by
  exact ⟨rfl, rfl⟩

/-- C1, amended: a request that succeeds is answered with status 200 and the
body shape choices / message / content holding the normalized answer, while
the fixed reply-shaped error payload is returned exactly when the pipeline
fails (with status 500). -/
theorem c1_response_shape
    (p : Option String → PipelineState → Except Unit (RespVal × PipelineState))
    (inp : Option String) (st : PipelineState) :
    (∀ v st', p inp st = Except.ok (v, st') →
      (chatEndpoint p inp st).1 = (200, successBody (normalizeContent v))) ∧
    (p inp st = Except.error () →
      (chatEndpoint p inp st).1 = (500, errorBody)) ∧
    ((chatEndpoint p inp st).1.2 = errorBody ↔ p inp st = Except.error ()) := by
  refine ⟨?_, ?_, ?_⟩
  · intro v st' h
    simp [chatEndpoint, h]
  · intro h
    simp [chatEndpoint, h]
  · cases hp : p inp st with
    | ok pr =>
      simp [chatEndpoint, hp]
      exact successBody_ne_errorBody _
    | error u =>
      cases u
      simp [chatEndpoint, hp]

/-- C1, witness for the amended theorem at concrete inputs. -/
theorem c1_response_shape_witness :
    (chatEndpoint okPipeline (some "你好") emptyState).1 = (200, successBody "您好！") ∧
    (chatEndpoint failPipeline (some "你好") emptyState).1 = (500, errorBody) :=
  ⟨(c1_response_shape okPipeline (some "你好") emptyState).1 (RespVal.str "您好！")
      emptyState rfl,
   (c1_response_shape failPipeline (some "你好") emptyState).2.1 rfl⟩

/-- C2 (code-bug evidence): for an empty message array the history document
content is the empty string, not a non-empty placeholder; the placeholder is
produced only when the message value is not an array. -/
theorem c2_empty_history_content :
    chatHistoryContent (some []) = "" ∧ chatHistoryContent none = "无历史对话" := by
  exact ⟨rfl, rfl⟩

/-- C3: when the completion service fails during response generation, the
caller receives status 500 with the fixed fallback payload and the
conversation history is unchanged. -/
theorem c3_generation_failure (rewriteLLM : String → Except Unit String)
    (sim : Str → Str → Int) (index : List Str)
    (gen : List (Str × Int) → Option String → Except Unit RespVal)
    (inp : Option String) (st : PipelineState)
    (hgen : ∀ chunks i, gen chunks i = Except.error ()) :
    chatEndpoint (chainPipeline rewriteLLM sim index gen) inp st = ((500, errorBody), st) := by
  simp [chatEndpoint, chainPipeline, hgen]

/-- C3, witness at concrete inputs. -/
theorem c3_generation_failure_witness :
    chatEndpoint (chainPipeline failLLM constSim [] failGen) (some "你好") emptyState =
      ((500, errorBody), emptyState) :=
  c3_generation_failure failLLM constSim [] failGen (some "你好") emptyState
    (fun _ _ => rfl)

/-- C4: when the completion service fails during query rewriting, the query
given to the retriever is the latest user input verbatim, and the request
still succeeds (status 200) whenever generation succeeds on the chunks
retrieved for that verbatim query. -/
theorem c4_rewrite_fallback (llm : String → Except Unit String)
    (sim : Str → Str → Int) (index : List Str)
    (gen : List (Str × Int) → Option String → Except Unit RespVal)
    (inp : Option String) (st : PipelineState) (v : RespVal)
    (hllm : ∀ s, llm s = Except.error ())
    (hgen : gen (queryIndex sim index (rawInput inp).toList retrieverK) inp =
      Except.ok v) :
    rewriteQuery llm inp = rawInput inp ∧
    (chatEndpoint (chainPipeline llm sim index gen) inp st).1.1 = 200 := by
  have hq : rewriteQuery llm inp = rawInput inp := by
    rw [rewriteQuery, hllm]
  refine ⟨hq, ?_⟩
  have hgen' : gen (queryIndex sim index (rawInput inp).data retrieverK) inp =
      Except.ok v := hgen
  simp [chatEndpoint, chainPipeline, hq, hgen']

/-- C4, witness at concrete inputs. -/
theorem c4_rewrite_fallback_witness :
    rewriteQuery failLLM (some "你好") = rawInput (some "你好") ∧
    (chatEndpoint (chainPipeline failLLM constSim [] okGen) (some "你好")
      emptyState).1.1 = 200 :=
  c4_rewrite_fallback failLLM constSim [] okGen (some "你好") emptyState
    (RespVal.str "您好！") (fun _ => rfl) rfl

/-- C5: if the embedding service fails while the index is being built at
startup, initialization resolves to an error and the process never serves
requests. -/
theorem c5_embedding_failure_aborts (loadRefs : Except StartupError (List Doc))
    (histMsgs : Option (List Msg))
    (embedBuild : List Doc → Except StartupError (List Str))
    (hembed : ∀ ds, embedBuild ds = Except.error StartupError.embeddingServiceError) :
    servesRequests (startup loadRefs histMsgs embedBuild) = false ∧
    ∃ e, startup loadRefs histMsgs embedBuild = Except.error e := by
  cases loadRefs with
  | error e => exact ⟨rfl, e, rfl⟩
  | ok refs =>
    refine ⟨?_, StartupError.embeddingServiceError, ?_⟩ <;>
      simp [startup, servesRequests, hembed, Except.isOk, Except.toBool]

/-- C5, witness at concrete inputs. -/
theorem c5_embedding_failure_aborts_witness :
    servesRequests (startup (Except.ok []) (some [])
      (fun _ => Except.error StartupError.embeddingServiceError)) = false ∧
    ∃ e, startup (Except.ok []) (some [])
      (fun _ => Except.error StartupError.embeddingServiceError) = Except.error e :=
  c5_embedding_failure_aborts (Except.ok []) (some [])
    (fun _ => Except.error StartupError.embeddingServiceError) (fun _ => rfl)

/-- C6: a document whose content has at most 100 units splits into exactly
one chunk equal to the whole content; a longer document splits into chunks of
at most 100 units each, adjacent chunks sharing exactly the 10 overlap units
(the final 10 units of each chunk are the first 10 of the next). -/
theorem c6_chunker (d : Doc) :
    (d.content.length ≤ 100 → splitStr d.content = [d.content]) ∧
    (100 < d.content.length →
      (∀ c ∈ splitStr d.content, c.length ≤ 100) ∧
      adjacentOverlap (splitStr d.content) = true) := by
  constructor
  · intro h
    exact splitStrGo_small _ _ h
  · intro h
    exact ⟨splitStrGo_len _ _ (by omega), splitStrGo_adjacent _ _ (by omega)⟩

/-- C6, witness at concrete documents. -/
theorem c6_chunker_witness :
    splitStr docShort.content = [docShort.content] ∧
    (List.replicate 100 'a').length ≤ 100 ∧
    adjacentOverlap (splitStr docLong.content) = true :=
  ⟨(c6_chunker docShort).1 (by decide),
   ((c6_chunker docLong).2 (by decide)).1 (List.replicate 100 'a') (by decide),
   ((c6_chunker docLong).2 (by decide)).2⟩

/-- C7: a retriever query returns (chunk, score) pairs sorted by
non-increasing similarity score, and at most min(k, number of indexed chunks)
of them, with k the fixed constant 2. -/
theorem c7_retriever_query (sim : Str → Str → Int) (index : List Str) (q : Str) :
    List.Pairwise (fun a b : Str × Int => b.2 ≤ a.2) (queryIndex sim index q retrieverK) ∧
    (queryIndex sim index q retrieverK).length ≤ min retrieverK index.length := by
  constructor
  · exact (pairwise_sortDesc _).sublist (List.take_sublist _ _)
  · simp [queryIndex, List.length_take, length_sortDesc]

/-- C8: every chunk produced by splitting carries the metadata of a parent
document unmodified. -/
theorem c8_chunk_metadata (docs : List Doc) (c : Doc)
    (hc : c ∈ splitDocuments docs) :
    ∃ d, d ∈ docs ∧ c.metadata = d.metadata := by
  simp only [splitDocuments, List.mem_flatMap, List.mem_map] at hc
  obtain ⟨d, hd, s, _, rfl⟩ := hc
  exact ⟨d, hd, rfl⟩

/-- C8, witness at a concrete document. -/
theorem c8_chunk_metadata_witness :
    ∃ d, d ∈ [docShort] ∧
      (Doc.mk "你好".toList [("source", "context.json")]).metadata = d.metadata :=
  c8_chunk_metadata [docShort] (Doc.mk "你好".toList [("source", "context.json")])
    (by decide)

/-- C9: the handler validates nothing: with the input field absent the
response is still only ever a 200 success or the fixed 500 fallback (never a
client-error rejection), and a pipeline failure on the absent input yields
exactly the fixed fallback with the history unchanged. -/
theorem c9_no_validation
    (p : Option String → PipelineState → Except Unit (RespVal × PipelineState))
    (st : PipelineState) :
    ((chatEndpoint p none st).1.1 = 200 ∨ (chatEndpoint p none st).1.1 = 500) ∧
    (p none st = Except.error () →
      chatEndpoint p none st = ((500, errorBody), st)) := by
  constructor
  · cases hp : p none st with
    | ok pr => exact Or.inl (by simp [chatEndpoint, hp])
    | error u => exact Or.inr (by simp [chatEndpoint, hp])
  · intro h
    simp [chatEndpoint, h]

/-- C9, witness at a concrete failing pipeline. -/
theorem c9_no_validation_witness :
    ((chatEndpoint failPipeline none emptyState).1.1 = 200 ∨
      (chatEndpoint failPipeline none emptyState).1.1 = 500) ∧
    chatEndpoint failPipeline none emptyState = ((500, errorBody), emptyState) :=
  ⟨(c9_no_validation failPipeline emptyState).1,
   (c9_no_validation failPipeline emptyState).2 rfl⟩

/-- C10: on success the reply content is normalized: an array answer becomes
the concatenation of each element's text (empty string for elements without
text), any other answer passes through unchanged. -/
theorem c10_content_normalization
    (p : Option String → PipelineState → Except Unit (RespVal × PipelineState))
    (inp : Option String) (st : PipelineState) (l : List RespElem) (s : String)
    (st1 st2 : PipelineState) :
    (p inp st = Except.ok (RespVal.arr l, st1) →
      (chatEndpoint p inp st).1.2 =
        successBody (String.join (l.map (fun c => c.text.getD "")))) ∧
    (p inp st = Except.ok (RespVal.str s, st2) →
      (chatEndpoint p inp st).1.2 = successBody s) := by
  constructor <;> intro h <;> simp [chatEndpoint, h, normalizeContent]

/-- C10, witness at concrete answers. -/
theorem c10_content_normalization_witness :
    (chatEndpoint arrPipeline none emptyState).1.2 = successBody "您好" ∧
    (chatEndpoint okPipeline none emptyState).1.2 = successBody "您好！" := by
  constructor
  · have h := (c10_content_normalization arrPipeline none emptyState
      [⟨some "您"⟩, ⟨none⟩, ⟨some "好"⟩] "x" emptyState emptyState).1 rfl
    simpa using h
  · have h := (c10_content_normalization okPipeline none emptyState [] "您好！"
      emptyState emptyState).2 rfl
    simpa using h

end ChatBackend
